import Mathlib

/-!
# secureapi-vault: registration, login and the token-protected route

Shallow embedding of `src/server.js`.

* The `users` array is a `List User`; `users.push` appends at the end and
  `users.find` is `List.find?`.
* A handler is a function from the store and the request fields to the new
  store and the response it sends.  A rejected promise or a thrown exception
  inside `try` is the `none` result of the call that raised it.
* `bcrypt.hash`, `bcrypt.compare` and the keyed signature behind the token
  packages are parameters of the model.  `bcrypt.hash` draws a fresh salt on
  every call, so it takes the drawn entropy as an extra argument.
* `jwt.sign` and `expressJwt` are calls into the `jsonwebtoken` and
  `express-jwt` packages, whose code is not in `src/`; what they do with the
  arguments `server.js` passes is modelled from sections 3 and 4.2 of the
  specification (`jwtSign`, `jwtVerify`, `expressJwt`).
* `Date.now()` is an explicit argument, in milliseconds.
* The `username` and `password` body fields are strings.
-/

namespace SecureApiVault

/-! ## Data model -/

/-- Element of the `users` array: `{ username, password: hashedPassword }`. -/
structure User where
  username : String
  password : String
deriving DecidableEq, Repr

/-- The two `bcryptjs` calls of the handlers.  `hash pw rounds entropy` is
`await bcrypt.hash(pw, rounds)` with the salt drawn from `entropy`;
`compare pw stored` is `await bcrypt.compare(pw, stored)`.  `none` is a
rejected promise. -/
structure Bcrypt where
  hash : String → Nat → Nat → Option String
  compare : String → String → Option Bool

/-- JOSE header of a token. -/
structure JwtHeader where
  alg : String
  typ : String
deriving DecidableEq, Repr

/-- Claims of a token, `{subject: username, issuedAt, expiresAt}`, the
times in seconds since the epoch; a presented token may lack an expiry. -/
structure JwtPayload where
  username : String
  iat : Nat
  exp : Option Nat
deriving DecidableEq, Repr

/-- A decoded compact JWT: header, payload and signature part. -/
structure Jwt where
  header : JwtHeader
  payload : JwtPayload
  signature : String
deriving DecidableEq, Repr

/-- Signature primitive behind the token packages: algorithm name, key, and
the signing input (header and payload) to the signature part. -/
abbrev Jwa := String → String → JwtHeader → JwtPayload → String

/-- What a response carries: `res.send(text)` or `res.json({ token })`. -/
inductive Body where
  | text (s : String)
  | token (t : Jwt)
deriving DecidableEq, Repr

/-- Status code and body sent by a handler. -/
structure Response where
  status : Nat
  body : Body
deriving DecidableEq, Repr

/-- Error object handed to `next(err)`; the error middleware reads `name`. -/
structure HttpError where
  name : String
  code : String
deriving DecidableEq, Repr

/-- The bearer credential of a request to the protected route: no
`Authorization` header, a header that is not a decodable bearer token, or
a decodable token. -/
inductive Credential where
  | missing
  | malformed
  | jwt (t : Jwt)
deriving DecidableEq, Repr

/-! ## Configuration -/

/-- The signing secret, `process.env.JWT_SECRET || 'your-secret-key'`: an unset or empty
variable falls back to the default. -/
def jwtSecret (env : Option String) : String :=
  match env with
  | some s => if s = "" then "your-secret-key" else s
  | none => "your-secret-key"

/-- The `algorithms` option given to `expressJwt`. -/
def algorithms : List String := ["HS256"]

/-- Seconds in `expiresIn: '1h'`. -/
def expiresIn : Nat := 60 * 60

/-- The reading `Math.floor(Date.now() / 1000)`: the clock in whole seconds, the unit of
the time claims. -/
def clockTimestamp (nowMs : Nat) : Nat := nowMs / 1000

/-! ## Tokens -/

/-- Modelled from the spec: `jwt.sign` of the `jsonwebtoken` package, whose
code is not in `src/`.  Section 4.2, Mint: a signed token encoding the
username, issued at the current time, with expiry the current time plus the
lifetime, signed with the symmetric secret under HMAC-SHA256 (`HS256`). -/
def jwtSign (jwa : Jwa) (username secret : String) (lifetime nowMs : Nat) : Jwt :=
  let header : JwtHeader := ⟨"HS256", "JWT"⟩
  let iat := clockTimestamp nowMs
  let payload : JwtPayload := ⟨username, iat, some (iat + lifetime)⟩
  ⟨header, payload, jwa header.alg secret header payload⟩

/-- Helper `generateAccessToken(username)`:
`jwt.sign({ username }, jwtSecret, { expiresIn: '1h' })`. -/
def generateAccessToken (jwa : Jwa) (secret : String) (nowMs : Nat) (username : String) : Jwt :=
  jwtSign jwa username secret expiresIn nowMs

/-- Modelled from the spec: token verification inside the `express-jwt`
package, whose code is not in `src/`.  Sections 3 and 4.2, Authenticate:
the algorithm named by the token must be one of the expected ones, the
signature must verify against the secret, and the current time must be
before the expiry; a failure names its cause. -/
def jwtVerify (jwa : Jwa) (secret : String) (allowed : List String) (nowMs : Nat)
    (t : Jwt) : Except String JwtPayload :=
  if t.header.alg ∉ allowed then .error "invalid algorithm"
  else if t.signature ≠ jwa t.header.alg secret t.header t.payload then
    .error "invalid signature"
  else
    match t.payload.exp with
    | some exp =>
      if clockTimestamp nowMs ≥ exp then .error "jwt expired" else .ok t.payload
    | none => .ok t.payload

/-- Modelled from the spec: the middleware built by `expressJwt` of the
`express-jwt` package, whose code is not in `src/`.  Sections 4.2, 6 and 7:
a missing, malformed, wrongly signed, wrong-algorithm or expired token is
an `UnauthorizedError` passed to `next`; otherwise the decoded claims
become `req.auth`. -/
def expressJwt (jwa : Jwa) (secret : String) (allowed : List String) (nowMs : Nat)
    (cred : Credential) : Except HttpError JwtPayload :=
  match cred with
  | .missing => .error ⟨"UnauthorizedError", "credentials_required"⟩
  | .malformed => .error ⟨"UnauthorizedError", "invalid_token"⟩
  | .jwt t =>
    match jwtVerify jwa secret allowed nowMs t with
    | .ok payload => .ok payload
    | .error _ => .error ⟨"UnauthorizedError", "invalid_token"⟩

/-- Middleware `authenticateToken = expressJwt({ secret: jwtSecret, algorithms: ["HS256"] })`. -/
def authenticateToken (jwa : Jwa) (secret : String) (nowMs : Nat)
    (cred : Credential) : Except HttpError JwtPayload :=
  expressJwt jwa secret algorithms nowMs cred

/-! ## Handlers -/

/-- Route `app.post('/register', ...)`: hash with work factor 10, push the record,
answer 201; a failed hash is caught and answered with 500. -/
def register (bcrypt : Bcrypt) (entropy : Nat) (users : List User)
    (username password : String) : List User × Response :=
  match bcrypt.hash password 10 entropy with
  | some hashedPassword =>
    (users ++ [⟨username, hashedPassword⟩], ⟨201, .text "User registered successfully"⟩)
  | none => (users, ⟨500, .text "Error registering user"⟩)

/-- Route `app.post('/login', ...)`: `users.find` on strict username equality, then
`user && await bcrypt.compare(password, user.password)`. -/
def login (bcrypt : Bcrypt) (jwa : Jwa) (secret : String) (nowMs : Nat) (users : List User)
    (username password : String) : Response :=
  match users.find? (fun u => decide (u.username = username)) with
  | none => ⟨401, .text "Invalid credentials"⟩
  | some user =>
    match bcrypt.compare password user.password with
    | some true => ⟨200, .token (generateAccessToken jwa secret nowMs username)⟩
    | some false => ⟨401, .text "Invalid credentials"⟩
    | none => ⟨500, .text "Error logging in"⟩

/-- Handler of `app.get('/protected', authenticateToken, ...)`. -/
def protectedHandler (auth : JwtPayload) : Response :=
  ⟨200, .text ("Hello " ++ auth.username ++ ", this is a protected route.")⟩

/-- The error handling middleware. -/
def errorMiddleware (err : HttpError) : Response :=
  if err.name = "UnauthorizedError" then ⟨401, .text "Invalid token"⟩
  else ⟨500, .text "Internal server error"⟩

/-- A request to `GET /protected`: `authenticateToken` runs first; the
handler runs on success, the error middleware on `next(err)`. -/
def getProtected (jwa : Jwa) (secret : String) (nowMs : Nat) (cred : Credential) : Response :=
  match authenticateToken jwa secret nowMs cred with
  | .ok auth => protectedHandler auth
  | .error err => errorMiddleware err

/-- A registration request: the entropy its hash call draws and the two
body fields. -/
structure Registration where
  entropy : Nat
  username : String
  password : String
deriving DecidableEq, Repr

/-- The store after a sequence of `/register` requests, served in order. -/
def registerAll (bcrypt : Bcrypt) (users : List User) : List Registration → List User
  | [] => users
  | r :: rest => registerAll bcrypt (register bcrypt r.entropy users r.username r.password).1 rest

/-! ## Sample primitives used to evaluate the handlers on concrete requests -/

/-- An unsalted stand-in for bcrypt: the hash tags the password, the empty
password cannot be hashed, and only well-formed hashes can be compared. -/
def sampleBcrypt : Bcrypt where
  hash := fun pw _ _ => if pw = "" then none else some ("$2a$" ++ pw)
  compare := fun pw stored =>
    if stored = "" then none else some (decide (stored = "$2a$" ++ pw))

/-- A stand-in whose comparison always throws. -/
def throwingBcrypt : Bcrypt where
  hash := fun pw _ _ => some ("$2a$" ++ pw)
  compare := fun _ _ => none

/-- A stand-in for the keyed signature: key, algorithm and subject joined. -/
def sampleJwa : Jwa :=
  fun alg key _ payload => key ++ "/" ++ alg ++ "/" ++ payload.username

/-- Block size of SHA-256 in bytes, the length HMAC brings its key to. -/
def hmacBlockSize : Nat := 64

/-- Key preparation of HMAC: a key shorter than the block is extended with
zero bytes up to the block size before it is used. -/
def hmacKey (key : String) : String :=
  key ++ String.mk (List.replicate (hmacBlockSize - key.length) (Char.ofNat 0))

/-- A stand-in for the keyed signature that prepares its key as HMAC does:
the signature depends on the key only through `hmacKey`. -/
def zeroPadJwa : Jwa :=
  fun alg key _ payload => hmacKey key ++ "/" ++ alg ++ "/" ++ payload.username

/-- The default secret followed by one zero byte. -/
def paddedDefaultSecret : String := "your-secret-key".push (Char.ofNat 0)

/-! ## Lemmas on the store lookup and the sample primitives -/

theorem find_none_of_absent (users : List User) (u : String)
    (h : ∀ r ∈ users, r.username ≠ u) :
    users.find? (fun x => decide (x.username = u)) = none := by
  rw [List.find?_eq_none]
  intro r hr
  simpa using h r hr

theorem find_append_of_some (users later : List User) (u : String) (r : User)
    (h : users.find? (fun x => decide (x.username = u)) = some r) :
    (users ++ later).find? (fun x => decide (x.username = u)) = some r := by
  simp [List.find?_append, h]

theorem find_append_of_none (users later : List User) (u : String)
    (h : users.find? (fun x => decide (x.username = u)) = none) :
    (users ++ later).find? (fun x => decide (x.username = u))
      = later.find? (fun x => decide (x.username = u)) := by
  simp [List.find?_append, h]

theorem find_isSome_of_mem (users : List User) (u : String)
    (h : ∃ r ∈ users, r.username = u) :
    ∃ r, users.find? (fun x => decide (x.username = u)) = some r := by
  obtain ⟨r, hr, hu⟩ := h
  cases hf : users.find? (fun x => decide (x.username = u)) with
  | some r0 => exact ⟨r0, rfl⟩
  | none =>
    rw [List.find?_eq_none] at hf
    exact absurd (by simpa using hu) (hf r hr)

theorem login_of_find_none (bcrypt : Bcrypt) (jwa : Jwa) (secret : String) (nowMs : Nat)
    (users : List User) (u p : String)
    (h : users.find? (fun x => decide (x.username = u)) = none) :
    login bcrypt jwa secret nowMs users u p = ⟨401, .text "Invalid credentials"⟩ := by
  simp [login, h]

theorem login_of_find_some (bcrypt : Bcrypt) (jwa : Jwa) (secret : String) (nowMs : Nat)
    (users : List User) (u p : String) (r : User)
    (h : users.find? (fun x => decide (x.username = u)) = some r) :
    login bcrypt jwa secret nowMs users u p =
      match bcrypt.compare p r.password with
      | some true => ⟨200, .token (generateAccessToken jwa secret nowMs u)⟩
      | some false => ⟨401, .text "Invalid credentials"⟩
      | none => ⟨500, .text "Error logging in"⟩ := by
  simp [login, h]

theorem register_fst_of_hash (bcrypt : Bcrypt) (entropy : Nat) (users : List User)
    (u p h : String) (hh : bcrypt.hash p 10 entropy = some h) :
    (register bcrypt entropy users u p).1 = users ++ [⟨u, h⟩] := by
  simp [register, hh]

theorem registerAll_eq (bcrypt : Bcrypt) (regs : List Registration) (users : List User) :
    registerAll bcrypt users regs = users ++ regs.filterMap
      (fun r => (bcrypt.hash r.password 10 r.entropy).map (fun h => User.mk r.username h)) := by
  induction regs generalizing users with
  | nil => simp [registerAll]
  | cons r rest ih =>
    cases hh : bcrypt.hash r.password 10 r.entropy with
    | none => simp [registerAll, register, hh, ih]
    | some h => simp [registerAll, register, hh, ih]

theorem append_tag_ne_empty (pw : String) : "$2a$" ++ pw ≠ "" := by
  intro h
  have := congrArg String.length h
  simp [String.length_append] at this
  exact absurd this.1 (by decide)

theorem append_tag_injective (p q : String) (h : "$2a$" ++ p = "$2a$" ++ q) : p = q := by
  have hd := congrArg String.data h
  simp only [String.data_append] at hd
  exact String.ext (List.append_cancel_left hd)

theorem sampleBcrypt_accepts (q : String) (e : Nat) (h : String)
    (hh : sampleBcrypt.hash q 10 e = some h) : sampleBcrypt.compare q h = some true := by
  simp only [sampleBcrypt] at hh ⊢
  by_cases hq : q = ""
  · simp [hq] at hh
  · simp only [hq, if_false, Option.some.injEq] at hh
    subst hh
    simp [append_tag_ne_empty]

theorem sampleBcrypt_rejects (q q2 : String) (e : Nat) (h : String)
    (hh : sampleBcrypt.hash q 10 e = some h) (hne : q2 ≠ q) :
    sampleBcrypt.compare q2 h = some false := by
  simp only [sampleBcrypt] at hh ⊢
  by_cases hq : q = ""
  · simp [hq] at hh
  · simp only [hq, if_false, Option.some.injEq] at hh
    subst hh
    have : ¬ ("$2a$" ++ q = "$2a$" ++ q2) := fun hc => hne (append_tag_injective _ _ hc).symm
    simp [append_tag_ne_empty, this]

/-! ## Registration followed by login -/

/-- C1, as stated, fails: with a record for `alice` already in the store
(registered with password `old`), registering `alice` again with `new`
succeeds, the comparison accepts `new` against its own hash, and yet the
login with `new` is answered 401, because the lookup returns the older
record. -/
theorem register_then_login_shadowed :
    (register sampleBcrypt 0 [] "alice" "old").1 = [⟨"alice", "$2a$old"⟩] ∧
    sampleBcrypt.hash "new" 10 1 = some "$2a$new" ∧
    sampleBcrypt.compare "new" "$2a$new" = some true ∧
    (register sampleBcrypt 1 [⟨"alice", "$2a$old"⟩] "alice" "new")
      = ([⟨"alice", "$2a$old"⟩, ⟨"alice", "$2a$new"⟩],
         ⟨201, .text "User registered successfully"⟩) ∧
    login sampleBcrypt sampleJwa (jwtSecret none) 5000
      (register sampleBcrypt 1 [⟨"alice", "$2a$old"⟩] "alice" "new").1 "alice" "new"
      = ⟨401, .text "Invalid credentials"⟩ := by
  decide

/-- C1, amended: for every store, username `u` and password `p` whose hash
succeeds, if the comparison accepts `p` against every hash of `p`, and the
earliest record the prior store holds for `u` (when it holds one) is also
accepted for `p`, then `/register (u, p)` followed by `/login (u, p)`
answers 200 with the token minted for `u`. -/
theorem register_then_login_succeeds (bcrypt : Bcrypt) (jwa : Jwa) (secret : String)
    (entropy nowMs : Nat) (users : List User) (u p h : String)
    (hhash : bcrypt.hash p 10 entropy = some h)
    (haccept : ∀ e v, bcrypt.hash p 10 e = some v → bcrypt.compare p v = some true)
    (hprior : ∀ r, users.find? (fun x => decide (x.username = u)) = some r →
      bcrypt.compare p r.password = some true) :
    login bcrypt jwa secret nowMs (register bcrypt entropy users u p).1 u p
      = ⟨200, .token (generateAccessToken jwa secret nowMs u)⟩ := by
  rw [register_fst_of_hash bcrypt entropy users u p h hhash]
  cases hf : users.find? (fun x => decide (x.username = u)) with
  | some r =>
    rw [login_of_find_some _ _ _ _ _ _ _ r (find_append_of_some users _ u r hf)]
    simp [hprior r hf]
  | none =>
    have hnew : (users ++ [User.mk u h]).find? (fun x => decide (x.username = u))
        = some ⟨u, h⟩ := by
      rw [find_append_of_none users _ u hf]
      simp
    rw [login_of_find_some _ _ _ _ _ _ _ _ hnew]
    simp [haccept entropy h hhash]

/-- Witness for C1 amended: a fresh `alice` registers with `s3cret` into a
store holding only `bob`, then logs in. -/
theorem register_then_login_succeeds_witness :
    sampleBcrypt.hash "s3cret" 10 7 = some "$2a$s3cret" ∧
    login sampleBcrypt sampleJwa "k" 5000
      (register sampleBcrypt 7 [⟨"bob", "$2a$hunter2"⟩] "alice" "s3cret").1 "alice" "s3cret"
      = ⟨200, .token (generateAccessToken sampleJwa "k" 5000 "alice")⟩ :=
  ⟨by decide,
   register_then_login_succeeds sampleBcrypt sampleJwa "k" 7 5000 [⟨"bob", "$2a$hunter2"⟩]
    "alice" "s3cret" "$2a$s3cret" (by decide)
    (fun e v hv => sampleBcrypt_accepts "s3cret" e v hv)
    (fun r hr => by simp at hr)⟩

/-- C2, as stated, fails: after `alice` registers twice, first with `first`
and then with `second`, the store holds a record for `alice` registered
with `p = second`; the comparison rejects `first` against that record, and
still the login with `first`, which differs from `p`, is answered 200 with
a token. -/
theorem login_wrong_password_shadowed :
    registerAll sampleBcrypt [] [⟨0, "alice", "first"⟩, ⟨1, "alice", "second"⟩]
      = [⟨"alice", "$2a$first"⟩, ⟨"alice", "$2a$second"⟩] ∧
    sampleBcrypt.hash "second" 10 1 = some "$2a$second" ∧
    (⟨"alice", "$2a$second"⟩ : User) ∈
      registerAll sampleBcrypt [] [⟨0, "alice", "first"⟩, ⟨1, "alice", "second"⟩] ∧
    "first" ≠ "second" ∧
    sampleBcrypt.compare "first" "$2a$second" = some false ∧
    login sampleBcrypt sampleJwa (jwtSecret none) 5000
      (registerAll sampleBcrypt [] [⟨0, "alice", "first"⟩, ⟨1, "alice", "second"⟩])
      "alice" "first"
      = ⟨200, .token (generateAccessToken sampleJwa "your-secret-key" 5000 "alice")⟩ := by
  decide

/-- C2, amended: for every store and every username `u` whose earliest
record in the store was registered with password `p`, if the comparison
rejects every other password against every hash of `p`, then `/login`
with `(u, q)` for any `q` different from `p` answers 401
`Invalid credentials`, and the body carries no token. -/
theorem login_wrong_password_rejected (bcrypt : Bcrypt) (jwa : Jwa) (secret : String)
    (entropy nowMs : Nat) (users : List User) (r : User) (u p q : String)
    (hfirst : users.find? (fun x => decide (x.username = u)) = some r)
    (hreg : bcrypt.hash p 10 entropy = some r.password)
    (hreject : ∀ e v q2, bcrypt.hash p 10 e = some v → q2 ≠ p →
      bcrypt.compare q2 v = some false)
    (hne : q ≠ p) :
    login bcrypt jwa secret nowMs users u q = ⟨401, .text "Invalid credentials"⟩ ∧
    ∀ t, (login bcrypt jwa secret nowMs users u q).body ≠ .token t := by
  have hl : login bcrypt jwa secret nowMs users u q = ⟨401, .text "Invalid credentials"⟩ := by
    rw [login_of_find_some _ _ _ _ _ _ _ r hfirst]
    simp [hreject entropy r.password q hreg hne]
  refine ⟨hl, ?_⟩
  intro t
  rw [hl]
  simp

/-- Witness for C2 amended: `alice` is registered once with `s3cret`;
logging in with `wrong` is refused. -/
theorem login_wrong_password_rejected_witness :
    [User.mk "alice" "$2a$s3cret"].find? (fun x => decide (x.username = "alice"))
      = some ⟨"alice", "$2a$s3cret"⟩ ∧
    sampleBcrypt.hash "s3cret" 10 3 = some "$2a$s3cret" ∧
    login sampleBcrypt sampleJwa "k" 5000 [⟨"alice", "$2a$s3cret"⟩] "alice" "wrong"
      = ⟨401, .text "Invalid credentials"⟩ :=
  ⟨by decide, by decide,
   (login_wrong_password_rejected sampleBcrypt sampleJwa "k" 3 5000
    [⟨"alice", "$2a$s3cret"⟩] ⟨"alice", "$2a$s3cret"⟩ "alice" "s3cret" "wrong"
    (by decide) (by decide)
    (fun e v q2 hv hq => sampleBcrypt_rejects "s3cret" q2 e v hv hq)
    (by decide)).1⟩

/-- C3: for every store and every username `u` with no record in it,
`/login` answers 401 `Invalid credentials` for every password, whatever the
comparison would do on that password: the statement holds for every
`bcrypt`, also one whose `compare` always throws, so the comparison is not
consulted and no 500 can arise. -/
theorem login_unknown_user (bcrypt : Bcrypt) (jwa : Jwa) (secret : String) (nowMs : Nat)
    (users : List User) (u p : String) (hno : ∀ r ∈ users, r.username ≠ u) :
    login bcrypt jwa secret nowMs users u p = ⟨401, .text "Invalid credentials"⟩ :=
  login_of_find_none bcrypt jwa secret nowMs users u p (find_none_of_absent users u hno)

/-- Witness for C3: `mallory` is unknown and the comparison throws on every
input; the answer is still 401. -/
theorem login_unknown_user_witness :
    throwingBcrypt.compare "pw" "$2a$s3cret" = none ∧
    login throwingBcrypt sampleJwa "k" 5000 [⟨"alice", "$2a$s3cret"⟩] "mallory" "pw"
      = ⟨401, .text "Invalid credentials"⟩ :=
  ⟨rfl, login_unknown_user throwingBcrypt sampleJwa "k" 5000 [⟨"alice", "$2a$s3cret"⟩]
    "mallory" "pw" (by decide)⟩

/-! ## Tokens: lifetime, secret and algorithm -/

theorem jwtVerify_minted (jwa : Jwa) (minting current : String) (u : String)
    (tMs nowMs : Nat) :
    jwtVerify jwa current algorithms nowMs (generateAccessToken jwa minting tMs u) =
      if (generateAccessToken jwa minting tMs u).signature
          ≠ jwa "HS256" current ⟨"HS256", "JWT"⟩
              ⟨u, clockTimestamp tMs, some (clockTimestamp tMs + 3600)⟩
      then .error "invalid signature"
      else if clockTimestamp nowMs ≥ clockTimestamp tMs + 3600 then .error "jwt expired"
      else .ok ⟨u, clockTimestamp tMs, some (clockTimestamp tMs + 3600)⟩ := by
  simp [jwtVerify, generateAccessToken, jwtSign, algorithms, expiresIn]

theorem authenticateToken_minted_same (jwa : Jwa) (secret u : String) (tMs nowMs : Nat) :
    authenticateToken jwa secret nowMs (.jwt (generateAccessToken jwa secret tMs u)) =
      if clockTimestamp nowMs ≥ clockTimestamp tMs + 3600
      then .error ⟨"UnauthorizedError", "invalid_token"⟩
      else .ok ⟨u, clockTimestamp tMs, some (clockTimestamp tMs + 3600)⟩ := by
  simp only [authenticateToken, expressJwt, jwtVerify_minted]
  have hs : (generateAccessToken jwa secret tMs u).signature
      = jwa "HS256" secret ⟨"HS256", "JWT"⟩
          ⟨u, clockTimestamp tMs, some (clockTimestamp tMs + 3600)⟩ := by
    simp [generateAccessToken, jwtSign, expiresIn]
  simp only [hs, ne_eq, not_true_eq_false, if_false]
  split_ifs <;> rfl

/-- C4: the token `generateAccessToken(u)` mints at clock reading `t`
(milliseconds `tMs`, `t` their whole seconds) carries `exp = t + 3600`;
under the same secret `authenticateToken` accepts it with claims whose
username is `u` at every time up to 3599 seconds after minting and rejects
it at every time from 3601 seconds after minting on; and under any current
secret it is accepted exactly when its signature is the one the current
secret gives and the clock reading is before `exp`. -/
theorem minted_token_lifetime (jwa : Jwa) (secret u : String) (tMs : Nat) :
    (generateAccessToken jwa secret tMs u).payload.exp = some (clockTimestamp tMs + 3600) ∧
    (∀ nowMs, nowMs ≤ tMs + 3599 * 1000 →
      ∃ claims, authenticateToken jwa secret nowMs
          (.jwt (generateAccessToken jwa secret tMs u)) = .ok claims ∧
        claims.username = u) ∧
    (∀ nowMs, tMs + 3601 * 1000 ≤ nowMs →
      authenticateToken jwa secret nowMs (.jwt (generateAccessToken jwa secret tMs u))
        = .error ⟨"UnauthorizedError", "invalid_token"⟩) ∧
    (∀ current nowMs,
      (∃ claims, authenticateToken jwa current nowMs
          (.jwt (generateAccessToken jwa secret tMs u)) = .ok claims) ↔
        ((generateAccessToken jwa secret tMs u).signature
            = jwa "HS256" current (generateAccessToken jwa secret tMs u).header
                (generateAccessToken jwa secret tMs u).payload ∧
          clockTimestamp nowMs < clockTimestamp tMs + 3600)) := by
  refine ⟨by simp [generateAccessToken, jwtSign, expiresIn], ?_, ?_, ?_⟩
  · intro nowMs hnow
    have hlt : ¬ (clockTimestamp nowMs ≥ clockTimestamp tMs + 3600) := by
      unfold clockTimestamp
      omega
    rw [authenticateToken_minted_same, if_neg hlt]
    exact ⟨_, rfl, rfl⟩
  · intro nowMs hnow
    have hge : clockTimestamp nowMs ≥ clockTimestamp tMs + 3600 := by
      unfold clockTimestamp
      omega
    rw [authenticateToken_minted_same, if_pos hge]
  · intro current nowMs
    simp only [authenticateToken, expressJwt, jwtVerify_minted]
    have hh : (generateAccessToken jwa secret tMs u).header = ⟨"HS256", "JWT"⟩ := by
      simp [generateAccessToken, jwtSign]
    have hp : (generateAccessToken jwa secret tMs u).payload
        = ⟨u, clockTimestamp tMs, some (clockTimestamp tMs + 3600)⟩ := by
      simp [generateAccessToken, jwtSign, expiresIn]
    rw [hh, hp]
    by_cases hs : (generateAccessToken jwa secret tMs u).signature
        = jwa "HS256" current ⟨"HS256", "JWT"⟩
            ⟨u, clockTimestamp tMs, some (clockTimestamp tMs + 3600)⟩
    · by_cases ht : clockTimestamp nowMs ≥ clockTimestamp tMs + 3600
      · simp [hs, ht]
      · simp [hs, ht]
        omega
    · simp [hs]

/-- Witness for C4: a token minted at 12.345 s is accepted for `alice`
exactly 3599 seconds later. -/
theorem minted_token_lifetime_witness :
    12345 + 3599 * 1000 ≤ 12345 + 3599 * 1000 ∧
    ∃ claims, authenticateToken sampleJwa "k" (12345 + 3599 * 1000)
        (.jwt (generateAccessToken sampleJwa "k" 12345 "alice")) = .ok claims ∧
      claims.username = "alice" :=
  ⟨Nat.le_refl _,
   (minted_token_lifetime sampleJwa "k" "alice" 12345).2.1 (12345 + 3599 * 1000)
    (Nat.le_refl _)⟩

/-- C5, as stated, fails: the default secret and the default secret
followed by one zero byte are distinct secrets, yet a keyed signature that
prepares its key as HMAC does gives both the same signature, so the token
minted for `alice` under the second is accepted by `authenticateToken`
configured with the first, and the request reaches the protected handler,
which answers 200. -/
theorem foreign_secret_accepted :
    jwtSecret none = "your-secret-key" ∧
    paddedDefaultSecret ≠ jwtSecret none ∧
    paddedDefaultSecret.length = 16 ∧
    (generateAccessToken zeroPadJwa paddedDefaultSecret 0 "alice").signature
      = (generateAccessToken zeroPadJwa (jwtSecret none) 0 "alice").signature ∧
    authenticateToken zeroPadJwa (jwtSecret none) 1000
        (.jwt (generateAccessToken zeroPadJwa paddedDefaultSecret 0 "alice"))
      = .ok ⟨"alice", 0, some 3600⟩ ∧
    getProtected zeroPadJwa (jwtSecret none) 1000
        (.jwt (generateAccessToken zeroPadJwa paddedDefaultSecret 0 "alice"))
      = ⟨200, .text "Hello alice, this is a protected route."⟩ :=
  ⟨by decide, by decide, by decide, by decide, by rfl, by decide⟩

/-- C5, amended: for every username `u` and every pair of secrets `secret`
and `other` that the keyed signature tells apart on the token (the HS256
signature `other` gives the token minted for `u` is not the one `secret`
gives it), the token signed for `u` with `other` is rejected by
`authenticateToken` configured with `secret`, at every time, and the
request ends in the 401 `Invalid token` response of the error middleware
and never in a response of the protected handler. -/
theorem foreign_secret_rejected (jwa : Jwa) (secret other u : String) (tMs nowMs : Nat)
    (hsig : (generateAccessToken jwa other tMs u).signature
      ≠ (generateAccessToken jwa secret tMs u).signature) :
    authenticateToken jwa secret nowMs (.jwt (generateAccessToken jwa other tMs u))
      = .error ⟨"UnauthorizedError", "invalid_token"⟩ ∧
    getProtected jwa secret nowMs (.jwt (generateAccessToken jwa other tMs u))
      = ⟨401, .text "Invalid token"⟩ ∧
    ∀ auth, getProtected jwa secret nowMs (.jwt (generateAccessToken jwa other tMs u))
      ≠ protectedHandler auth := by
  have hs : (generateAccessToken jwa other tMs u).signature
      ≠ jwa "HS256" secret ⟨"HS256", "JWT"⟩
          ⟨u, clockTimestamp tMs, some (clockTimestamp tMs + 3600)⟩ := by
    intro h
    apply hsig
    rw [h]
    simp [generateAccessToken, jwtSign, expiresIn]
  have ha : authenticateToken jwa secret nowMs (.jwt (generateAccessToken jwa other tMs u))
      = .error ⟨"UnauthorizedError", "invalid_token"⟩ := by
    simp only [authenticateToken, expressJwt, jwtVerify_minted, if_pos hs]
  have hg : getProtected jwa secret nowMs (.jwt (generateAccessToken jwa other tMs u))
      = ⟨401, .text "Invalid token"⟩ := by
    simp [getProtected, ha, errorMiddleware]
  refine ⟨ha, hg, ?_⟩
  intro auth
  rw [hg]
  simp [protectedHandler]

/-- Witness for C5 amended: a token minted under `attacker-key` is presented
to a server running with the default secret; the zero-padding signature
tells these two keys apart. -/
theorem foreign_secret_rejected_witness :
    (generateAccessToken zeroPadJwa "attacker-key" 0 "alice").signature
      ≠ (generateAccessToken zeroPadJwa (jwtSecret none) 0 "alice").signature ∧
    getProtected zeroPadJwa (jwtSecret none) 1000
        (.jwt (generateAccessToken zeroPadJwa "attacker-key" 0 "alice"))
      = ⟨401, .text "Invalid token"⟩ :=
  ⟨by decide,
   (foreign_secret_rejected zeroPadJwa (jwtSecret none) "attacker-key" "alice" 0 1000
    (by decide)).2.1⟩

/-- C6: `authenticateToken` pins the algorithm to HS256.  Every presented
token whose header names another algorithm is rejected, whatever its
payload and signature, at every time and under every secret, and the
request ends with 401 `Invalid token`; and whenever a token is accepted,
its header names HS256 and its signature is the HS256 signature of the
server secret over its signing input. -/
theorem algorithm_pinned (jwa : Jwa) (secret : String) (nowMs : Nat) :
    (∀ t : Jwt, t.header.alg ≠ "HS256" →
      jwtVerify jwa secret algorithms nowMs t = .error "invalid algorithm" ∧
      authenticateToken jwa secret nowMs (.jwt t)
        = .error ⟨"UnauthorizedError", "invalid_token"⟩ ∧
      getProtected jwa secret nowMs (.jwt t) = ⟨401, .text "Invalid token"⟩) ∧
    (∀ (t : Jwt) claims, authenticateToken jwa secret nowMs (.jwt t) = .ok claims →
      t.header.alg = "HS256" ∧ t.signature = jwa "HS256" secret t.header t.payload) := by
  constructor
  · intro t halg
    have hv : jwtVerify jwa secret algorithms nowMs t = .error "invalid algorithm" := by
      simp [jwtVerify, algorithms, halg]
    refine ⟨hv, ?_, ?_⟩
    · simp [authenticateToken, expressJwt, hv]
    · simp [getProtected, authenticateToken, expressJwt, hv, errorMiddleware]
  · intro t claims hok
    by_cases halg : t.header.alg = "HS256"
    · refine ⟨halg, ?_⟩
      by_contra hsig
      simp [authenticateToken, expressJwt, jwtVerify, algorithms, halg, hsig] at hok
    · simp [authenticateToken, expressJwt, jwtVerify, algorithms, halg] at hok

/-- Witness for C6: a token labelled `none`, with the payload and the very
signature of a freshly minted one, is refused. -/
theorem algorithm_pinned_witness :
    (Jwt.mk ⟨"none", "JWT"⟩ (generateAccessToken sampleJwa "k" 0 "alice").payload
        (generateAccessToken sampleJwa "k" 0 "alice").signature).header.alg ≠ "HS256" ∧
    getProtected sampleJwa "k" 1000
        (.jwt (Jwt.mk ⟨"none", "JWT"⟩ (generateAccessToken sampleJwa "k" 0 "alice").payload
          (generateAccessToken sampleJwa "k" 0 "alice").signature))
      = ⟨401, .text "Invalid token"⟩ :=
  ⟨by decide,
   ((algorithm_pinned sampleJwa "k" 1000).1
    (Jwt.mk ⟨"none", "JWT"⟩ (generateAccessToken sampleJwa "k" 0 "alice").payload
      (generateAccessToken sampleJwa "k" 0 "alice").signature) (by decide)).2.2⟩

/-! ## The store under registration -/

/-- C7: for every store `users` and every `(u, p)` whose hash succeeds with
value `h`, `/register` leaves the store equal to `users` with the one record
`(u, h)` appended at the end: the length grows by one, every earlier record
keeps its position and content, the last record holds the value returned by
the hash call in its password field, and the response is 201, for every
prior store, so also when `u` was already present. -/
theorem register_appends (bcrypt : Bcrypt) (entropy : Nat) (users : List User)
    (u p h : String) (hhash : bcrypt.hash p 10 entropy = some h) :
    (register bcrypt entropy users u p).1 = users ++ [⟨u, h⟩] ∧
    (register bcrypt entropy users u p).1.length = users.length + 1 ∧
    (∀ i, i < users.length → (register bcrypt entropy users u p).1[i]? = users[i]?) ∧
    (register bcrypt entropy users u p).1[users.length]? = some ⟨u, h⟩ ∧
    (register bcrypt entropy users u p).2 = ⟨201, .text "User registered successfully"⟩ := by
  have hs := register_fst_of_hash bcrypt entropy users u p h hhash
  refine ⟨hs, ?_, ?_, ?_, ?_⟩
  · simp [hs]
  · intro i hi
    rw [hs, List.getElem?_append_left hi]
  · rw [hs]
    simp
  · simp [register, hhash]

/-- Witness for C7: `alice` registers a second time; the earlier record
stays in front and the new one is appended. -/
theorem register_appends_witness :
    sampleBcrypt.hash "new" 10 4 = some "$2a$new" ∧
    (register sampleBcrypt 4 [⟨"alice", "$2a$old"⟩] "alice" "new").1
      = [⟨"alice", "$2a$old"⟩] ++ [⟨"alice", "$2a$new"⟩] ∧
    (register sampleBcrypt 4 [⟨"alice", "$2a$old"⟩] "alice" "new").2
      = ⟨201, .text "User registered successfully"⟩ :=
  ⟨by decide,
   (register_appends sampleBcrypt 4 [⟨"alice", "$2a$old"⟩] "alice" "new" "$2a$new"
    (by decide)).1,
   (register_appends sampleBcrypt 4 [⟨"alice", "$2a$old"⟩] "alice" "new" "$2a$new"
    (by decide)).2.2.2.2⟩

/-- C8: when the hash call fails, `/register` answers 500
`Error registering user` and the store is exactly the store before the
request. -/
theorem register_hash_failure (bcrypt : Bcrypt) (entropy : Nat) (users : List User)
    (u p : String) (hfail : bcrypt.hash p 10 entropy = none) :
    register bcrypt entropy users u p = (users, ⟨500, .text "Error registering user"⟩) := by
  simp [register, hfail]

/-- Witness for C8: the sample hash refuses the empty password. -/
theorem register_hash_failure_witness :
    sampleBcrypt.hash "" 10 0 = none ∧
    register sampleBcrypt 0 [⟨"alice", "$2a$s3cret"⟩] "bob" ""
      = ([⟨"alice", "$2a$s3cret"⟩], ⟨500, .text "Error registering user"⟩) :=
  ⟨by decide,
   register_hash_failure sampleBcrypt 0 [⟨"alice", "$2a$s3cret"⟩] "bob" "" (by decide)⟩

/-! ## Login decisions -/

/-- C9: a `/login` run with a username that has no record and a `/login` run
with a registered username whose password the comparison rejects send the
same response, status 401 with body `Invalid credentials`; the two runs may
differ in store, fields and time. -/
theorem login_failure_indistinguishable (bcrypt : Bcrypt) (jwa : Jwa) (secret : String)
    (now1 now2 : Nat) (users1 users2 : List User) (u1 p1 u2 p2 : String) (r : User)
    (hunknown : ∀ x ∈ users1, x.username ≠ u1)
    (hknown : users2.find? (fun x => decide (x.username = u2)) = some r)
    (hreject : bcrypt.compare p2 r.password = some false) :
    login bcrypt jwa secret now1 users1 u1 p1 = login bcrypt jwa secret now2 users2 u2 p2 ∧
    login bcrypt jwa secret now1 users1 u1 p1 = ⟨401, .text "Invalid credentials"⟩ := by
  have h1 := login_of_find_none bcrypt jwa secret now1 users1 u1 p1
    (find_none_of_absent users1 u1 hunknown)
  have h2 : login bcrypt jwa secret now2 users2 u2 p2 = ⟨401, .text "Invalid credentials"⟩ := by
    rw [login_of_find_some _ _ _ _ _ _ _ r hknown]
    simp [hreject]
  exact ⟨h1.trans h2.symm, h1⟩

/-- Witness for C9: unknown `mallory` against known `alice` with a wrong
password, on the same store. -/
theorem login_failure_indistinguishable_witness :
    sampleBcrypt.compare "wrong" "$2a$s3cret" = some false ∧
    login sampleBcrypt sampleJwa "k" 5000 [⟨"alice", "$2a$s3cret"⟩] "mallory" "s3cret"
      = login sampleBcrypt sampleJwa "k" 6000 [⟨"alice", "$2a$s3cret"⟩] "alice" "wrong" :=
  ⟨by decide,
   (login_failure_indistinguishable sampleBcrypt sampleJwa "k" 5000 6000
    [⟨"alice", "$2a$s3cret"⟩] [⟨"alice", "$2a$s3cret"⟩] "mallory" "s3cret" "alice" "wrong"
    ⟨"alice", "$2a$s3cret"⟩ (by decide) (by decide) (by decide)).1⟩

/-- C10: after any sequence of registrations the store lists the successful
ones in arrival order, and `/login (u, p)` answers 200 with a token exactly
when the comparison accepts `p` against the password field of the first
record whose username equals `u`; once the store holds a record for `u`,
no further registrations change the response to `/login (u, p)`. -/
theorem login_first_record (bcrypt : Bcrypt) (jwa : Jwa) (secret : String) (nowMs : Nat)
    (regs : List Registration) (u p : String) :
    registerAll bcrypt [] regs = regs.filterMap
      (fun r => (bcrypt.hash r.password 10 r.entropy).map (fun h => User.mk r.username h)) ∧
    (login bcrypt jwa secret nowMs (registerAll bcrypt [] regs) u p
        = ⟨200, .token (generateAccessToken jwa secret nowMs u)⟩ ↔
      ∃ r, (registerAll bcrypt [] regs).find? (fun x => decide (x.username = u)) = some r ∧
        bcrypt.compare p r.password = some true) ∧
    ((login bcrypt jwa secret nowMs (registerAll bcrypt [] regs) u p).status = 200 ↔
      ∃ r, (registerAll bcrypt [] regs).find? (fun x => decide (x.username = u)) = some r ∧
        bcrypt.compare p r.password = some true) ∧
    (∀ later : List Registration,
      (∃ r ∈ registerAll bcrypt [] regs, r.username = u) →
      login bcrypt jwa secret nowMs
          (registerAll bcrypt (registerAll bcrypt [] regs) later) u p
        = login bcrypt jwa secret nowMs (registerAll bcrypt [] regs) u p) := by
  refine ⟨by simpa using registerAll_eq bcrypt regs [], ?_, ?_, ?_⟩
  · cases hf : (registerAll bcrypt [] regs).find? (fun x => decide (x.username = u)) with
    | none => simp [login_of_find_none _ _ _ _ _ _ _ hf]
    | some r =>
      rw [login_of_find_some _ _ _ _ _ _ _ r hf]
      cases hc : bcrypt.compare p r.password with
      | none => simp [hc]
      | some b => cases b <;> simp [hc]
  · cases hf : (registerAll bcrypt [] regs).find? (fun x => decide (x.username = u)) with
    | none => simp [login_of_find_none _ _ _ _ _ _ _ hf]
    | some r =>
      rw [login_of_find_some _ _ _ _ _ _ _ r hf]
      cases hc : bcrypt.compare p r.password with
      | none => simp [hc]
      | some b => cases b <;> simp [hc]
  · intro later hmem
    obtain ⟨r, hr⟩ := find_isSome_of_mem _ u hmem
    rw [registerAll_eq bcrypt later (registerAll bcrypt [] regs),
      login_of_find_some _ _ _ _ _ _ _ r (find_append_of_some _ _ u r hr),
      login_of_find_some _ _ _ _ _ _ _ r hr]

/-- Witness for C10: `alice` registers with `first`, `Alice` with `other`,
then `alice` again with `second`.  The login of `alice` is decided by her
first record, unchanged by the later ones, and `Alice` is a different
user. -/
theorem login_first_record_witness :
    login sampleBcrypt sampleJwa "k" 5000
        (registerAll sampleBcrypt (registerAll sampleBcrypt [] [⟨0, "alice", "first"⟩])
          [⟨1, "Alice", "other"⟩, ⟨2, "alice", "second"⟩]) "alice" "second"
      = login sampleBcrypt sampleJwa "k" 5000
          (registerAll sampleBcrypt [] [⟨0, "alice", "first"⟩]) "alice" "second" ∧
    login sampleBcrypt sampleJwa "k" 5000
        (registerAll sampleBcrypt [] [⟨0, "alice", "first"⟩]) "alice" "second"
      = ⟨401, .text "Invalid credentials"⟩ ∧
    login sampleBcrypt sampleJwa "k" 5000
        (registerAll sampleBcrypt [] [⟨0, "alice", "first"⟩]) "Alice" "first"
      = ⟨401, .text "Invalid credentials"⟩ :=
  ⟨(login_first_record sampleBcrypt sampleJwa "k" 5000 [⟨0, "alice", "first"⟩]
      "alice" "second").2.2.2 [⟨1, "Alice", "other"⟩, ⟨2, "alice", "second"⟩] (by decide),
   by decide, by decide⟩

end SecureApiVault
